import Mathlib

/-!
Verification of `msl/equipment/connection_message_based.py`.

A shallow embedding of the `ConnectionMessageBased` class: its configuration
state, property setters, and the `query` convenience method.  Python numbers
that flow into the setters are modelled by `PyNum` (an `int`, a `bool` — which
is a subclass of `int` in Python — or a `float`, whose value is represented
exactly as a rational).  A setter that raises an exception is modelled as
returning `(some error, post_state)`, where `post_state` records every field
mutation that happened before the raise.  The abstract `read`/`write` methods
(which the base class leaves to subclasses) are modelled by a `Transport`
record of fallible functions, and `query` additionally produces the list of
observable events it performs, so that ordering claims can be stated.
-/

/-- A Python numeric value as seen by the setters: an `int`, a `bool`
(a subclass of `int` in Python), or a `float` whose value is an exact
rational. -/
inductive PyNum : Type
  | int (n : Int)
  | bool (b : Bool)
  | float (q : ℚ)
deriving DecidableEq

/-- Models Python `float(v)` for a numeric `v`, and the numeric value used by
comparison operators such as `size < 1`. -/
def PyNum.toFloat : PyNum → ℚ
  | .int n => (n : ℚ)
  | .bool b => if b then 1 else 0
  | .float q => q

/-- Models Python `isinstance(v, int)`: true for `int` and for `bool`
(a subclass of `int`), false for `float`. -/
def PyNum.isinstance_int : PyNum → Bool
  | .int _ => true
  | .bool _ => true
  | .float _ => false

/-- Models Python `int(v)`: identity on `int`, 0/1 on `bool`, truncation
toward zero on `float`. -/
def PyNum.toInt : PyNum → Int
  | .int n => n
  | .bool b => if b then 1 else 0
  | .float q => Int.tdiv q.num (q.den : Int)

/-- Models Python `str(v)` as used in error-message formatting. -/
def pyRepr : PyNum → String
  | .int n => toString n
  | .bool true => "True"
  | .bool false => "False"
  | .float q => toString q

/-- The Python exceptions this module can raise: `ValueError` from the
`max_read_size` and timeout setters, the codec-lookup/unicode errors raised
by a failed encode/decode round-trip (the spec's `EncodingError`), and
errors propagated from a transport subclass. -/
inductive PyErr : Type
  | valueError (msg : String)
  | encodingError
  | transportError (msg : String)
deriving DecidableEq

/-- Models Python `'\r'`. -/
def CR : String := "\r"

/-- Models Python `'\n'`. -/
def LF : String := "\n"

/-- The configuration state of a `ConnectionMessageBased` instance: the five
instance attributes assigned in `__init__`.  The timeout is an optional
rational (Python `float` or `None`). -/
structure ConnectionMessageBased : Type where
  read_termination : Option String
  write_termination : Option String
  encoding : String
  max_read_size : Int
  timeout : Option ℚ
deriving DecidableEq

/-- Models `ConnectionMessageBased.__init__`: the attribute assignments
performed on construction. -/
def ConnectionMessageBased.init : ConnectionMessageBased :=
  { read_termination := some LF
  , write_termination := some (CR ++ LF)
  , encoding := "utf-8"
  , max_read_size := 2 ^ 16
  , timeout := none }

/-- Models the `max_read_size` property setter:
`if not isinstance(size, int) or size < 1: raise ValueError(...)` then
`self._max_read_size = int(size)`.  The raise happens before any mutation,
so on failure the returned state is the input state. -/
def set_max_read_size (c : ConnectionMessageBased) (size : PyNum) :
    Option PyErr × ConnectionMessageBased :=
  if size.isinstance_int = false ∨ size.toFloat < 1 then
    (some (.valueError
      ("The number of bytes to read must be >0 and an integer, got " ++ pyRepr size)), c)
  else
    (none, { c with max_read_size := size.toInt })

/-- Models `_set_timeout_value`: if the value is not `None`, the method first
assigns `self._timeout = float(value)`, then normalizes `0.0` to `None`, and
only then raises `ValueError` if the (already stored) value is negative.
If the value is `None` the body is skipped entirely. -/
def _set_timeout_value (c : ConnectionMessageBased) (value : Option PyNum) :
    Option PyErr × ConnectionMessageBased :=
  match value with
  | none => (none, c)
  | some v =>
    let t : ℚ := v.toFloat
    let c1 := { c with timeout := some t }
    if t = 0 then
      (none, { c1 with timeout := none })
    else if t < 0 then
      (some (.valueError ("Not a valid timeout value: " ++ pyRepr v)), c1)
    else
      (none, c1)

/-- An environment of named codecs: `encode name text` models
`text.encode(name)` (`none` when it raises) and `decode name bytes` models
`bytes.decode(name)`.  The Python codec registry is external to the source
file, so it is a parameter of the embedding. -/
structure CodecEnv : Type where
  encode : String → String → Option (List Nat)
  decode : String → List Nat → Option String

/-- The fixed probe string used by the encoding setter. -/
def probe : String := "test encoding"

/-- Models the `encoding` property setter:
`_ = 'test encoding'.encode(encoding).decode(encoding)` followed by
`self._encoding = encoding`.  A failure of either half of the round-trip
raises before the assignment, so on failure the state is unchanged. -/
def set_encoding (env : CodecEnv) (c : ConnectionMessageBased)
    (encoding : String) : Option PyErr × ConnectionMessageBased :=
  match env.encode encoding probe with
  | none => (some .encodingError, c)
  | some bs =>
    match env.decode encoding bs with
    | none => (some .encodingError, c)
    | some _ => (none, { c with encoding := encoding })

/-- Whether the encode-then-decode round-trip of the probe string succeeds
for a codec name, in a given codec environment. -/
def roundtrips (env : CodecEnv) (name : String) : Bool :=
  match env.encode name probe with
  | none => false
  | some bs => (env.decode name bs).isSome

/-- The observable events performed by `query`: the `write` call, the
`time.sleep(delay)` suspension, and the `read` call, in the order they
occur. -/
inductive Event : Type
  | write (message : String)
  | sleep (delay : ℚ)
  | read (size : Option Int)
deriving DecidableEq

/-- Whether an event is the `time.sleep` suspension. -/
def Event.isSleep : Event → Bool
  | .sleep _ => true
  | _ => false

/-- The abstract `read`/`write` methods that a subclass must override,
modelled as fallible functions over a transport state `δ`.  `write` returns
the number of bytes written; `read` returns the response string. -/
structure Transport (δ : Type) : Type where
  write : String → δ → Except PyErr (Int × δ)
  read : Option Int → δ → Except PyErr (String × δ)

/-- Models `query`: `self.write(message)`, then `if delay > 0.0:
time.sleep(delay)`, then `return self.read(size)`.  The second component is
the trace of events actually performed, in order; an exception from `write`
aborts the method before the sleep and the read. -/
def query {δ : Type} (T : Transport δ) (message : String) (delay : ℚ)
    (size : Option Int) (d : δ) : Except PyErr (String × δ) × List Event :=
  match T.write message d with
  | .error e => (.error e, [Event.write message])
  | .ok (_, d1) =>
    let pre : List Event :=
      if 0 < delay then [Event.write message, Event.sleep delay]
      else [Event.write message]
    match T.read size d1 with
    | .error e => (.error e, pre ++ [Event.read size])
    | .ok r => (.ok r, pre ++ [Event.read size])

/-- Modelled from the spec, for the refinement claim C5: `write(msg)`
immediately followed by `read(size)`, with no suspension between them. -/
def write_then_read_spec {δ : Type} (T : Transport δ) (message : String)
    (size : Option Int) (d : δ) : Except PyErr (String × δ) × List Event :=
  match T.write message d with
  | .error e => (.error e, [Event.write message])
  | .ok (_, d1) =>
    match T.read size d1 with
    | .error e => (.error e, [Event.write message, Event.read size])
    | .ok r => (.ok r, [Event.write message, Event.read size])

/-- A concrete transport whose `write` and `read` both succeed, used by
witnesses. -/
def okTransport : Transport Unit :=
  { write := fun message _ => .ok (Int.ofNat message.length, ())
  , read := fun _ _ => .ok ("MODEL-42", ()) }

/-- A concrete transport whose `write` fails, used by witnesses. -/
def writeFail : Transport Unit :=
  { write := fun _ _ => .error (.transportError "device disconnected")
  , read := fun _ _ => .ok ("", ()) }

/-- A concrete transport whose `write` succeeds and whose `read` fails, used
by witnesses. -/
def readFail : Transport Unit :=
  { write := fun message _ => .ok (Int.ofNat message.length, ())
  , read := fun _ _ => .error (.transportError "timeout") }

/-- A concrete codec environment for witnesses: only the name `utf-8` is a
known codec, encoding each character to its code point. -/
def env0 : CodecEnv :=
  { encode := fun name s =>
      if name = "utf-8" then some (s.toList.map Char.toNat) else none
  , decode := fun name bs =>
      if name = "utf-8" then some (String.mk (bs.map Char.ofNat)) else none }

/-- Claim C7: a freshly constructed channel has `read_termination` equal to
the line-feed character, `write_termination` equal to carriage-return
followed by line-feed, encoding `utf-8`, `max_read_size` 65536, and no
timeout. -/
theorem C7_defaults :
    ConnectionMessageBased.init.read_termination = some "\n" ∧
    ConnectionMessageBased.init.write_termination = some "\r\n" ∧
    ConnectionMessageBased.init.encoding = "utf-8" ∧
    ConnectionMessageBased.init.max_read_size = 65536 ∧
    ConnectionMessageBased.init.timeout = none := by
  refine ⟨rfl, rfl, rfl, by decide, rfl⟩

/-- Claim C8: for every numeric value with `float(v) > 0`,
`_set_timeout_value` succeeds and stores `float(v)` as the timeout; for a
value with `float(v) = 0`, it succeeds and stores `None` (zero is
normalized to "no timeout"). -/
theorem C8_timeout_positive_and_zero :
    (∀ (c : ConnectionMessageBased) (v : PyNum), 0 < v.toFloat →
      _set_timeout_value c (some v) = (none, { c with timeout := some v.toFloat })) ∧
    (∀ (c : ConnectionMessageBased) (v : PyNum), v.toFloat = 0 →
      _set_timeout_value c (some v) = (none, { c with timeout := none })) := by
  constructor
  · intro c v h
    have h0 : v.toFloat ≠ 0 := ne_of_gt h
    have h1 : ¬ v.toFloat < 0 := not_lt_of_gt h
    simp [_set_timeout_value, h0, h1]
  · intro c v h
    simp [_set_timeout_value, h]

/-- Witness for C8: a positive float stores that value and an integer zero
stores `None`, starting from the freshly constructed channel. -/
theorem C8_witness :
    _set_timeout_value ConnectionMessageBased.init (some (.float 5)) =
      (none, { ConnectionMessageBased.init with timeout := some ((PyNum.float 5).toFloat) }) ∧
    _set_timeout_value ConnectionMessageBased.init (some (.int 0)) =
      (none, { ConnectionMessageBased.init with timeout := none }) :=
  ⟨C8_timeout_positive_and_zero.1 ConnectionMessageBased.init (.float 5) (by norm_num [PyNum.toFloat]),
   C8_timeout_positive_and_zero.2 ConnectionMessageBased.init (.int 0) (by norm_num [PyNum.toFloat])⟩

/-- Counterexample to claim C1: starting from a stored timeout of 5 seconds,
calling `_set_timeout_value` with -1 does raise, but the stored timeout has
been overwritten with -1 before the raise — the prior value is not left
unchanged. -/
theorem C1_counterexample :
    ((_set_timeout_value { ConnectionMessageBased.init with timeout := some 5 }
        (some (.float (-1)))).1.isSome = true) ∧
    ((_set_timeout_value { ConnectionMessageBased.init with timeout := some 5 }
        (some (.float (-1)))).2.timeout = some (-1)) ∧
    ((_set_timeout_value { ConnectionMessageBased.init with timeout := some 5 }
        (some (.float (-1)))).2.timeout ≠ some 5) := by
  refine ⟨by decide, by decide, by decide⟩

/-- Claim C1 as amended: for every numeric value with `float(v) < 0`,
`_set_timeout_value` raises `ValueError`, but the stored timeout has already
been mutated to `float(v)` before the raise (the assignment precedes the
validation, so there is no strong exception safety). -/
theorem C1_negative_timeout_raises_after_mutation
    (c : ConnectionMessageBased) (v : PyNum) (h : v.toFloat < 0) :
    _set_timeout_value c (some v) =
      (some (.valueError ("Not a valid timeout value: " ++ pyRepr v)),
       { c with timeout := some v.toFloat }) := by
  have h0 : v.toFloat ≠ 0 := ne_of_lt h
  simp [_set_timeout_value, h0, h]

/-- Witness for the amended C1 at the concrete input -1. -/
theorem C1_witness :
    _set_timeout_value ConnectionMessageBased.init (some (.float (-1))) =
      (some (.valueError ("Not a valid timeout value: " ++ pyRepr (.float (-1)))),
       { ConnectionMessageBased.init with timeout := some ((PyNum.float (-1)).toFloat) }) :=
  C1_negative_timeout_raises_after_mutation ConnectionMessageBased.init (.float (-1))
    (by norm_num [PyNum.toFloat])

/-- Counterexample to claim C2: starting from a stored timeout of 5 seconds,
calling `_set_timeout_value` with `None` leaves the timeout at 5 — it does
not clear it. -/
theorem C2_counterexample :
    ((_set_timeout_value { ConnectionMessageBased.init with timeout := some 5 }
        none).2.timeout = some 5) ∧
    ((_set_timeout_value { ConnectionMessageBased.init with timeout := some 5 }
        none).2.timeout ≠ none) := by
  refine ⟨rfl, by decide⟩

/-- Claim C2 as amended: calling `_set_timeout_value` with `None` is a
no-op — it raises nothing and leaves the whole state, in particular the
stored timeout, exactly as it was. -/
theorem C2_none_is_noop (c : ConnectionMessageBased) :
    _set_timeout_value c none = (none, c) := rfl

/-- Claim C3: for every integer n with n at least 1, the `max_read_size`
setter succeeds and stores n; for every value that is not an `int` (a
`float`) or whose numeric value is at most 0, the setter raises
`ValueError` and the stored limit is unchanged. -/
theorem C3_max_read_size :
    (∀ (c : ConnectionMessageBased) (n : Int), 1 ≤ n →
      set_max_read_size c (.int n) = (none, { c with max_read_size := n })) ∧
    (∀ (c : ConnectionMessageBased) (v : PyNum),
      v.isinstance_int = false ∨ v.toFloat ≤ 0 →
      (∃ m, (set_max_read_size c v).1 = some (.valueError m)) ∧
      (set_max_read_size c v).2 = c) := by
  constructor
  · intro c n h
    have hcond : ¬ ((PyNum.int n).isinstance_int = false ∨ (PyNum.int n).toFloat < 1) := by
      push_neg
      refine ⟨by simp [PyNum.isinstance_int], ?_⟩
      simp only [PyNum.toFloat]
      exact_mod_cast h
    unfold set_max_read_size
    rw [if_neg hcond]
    rfl
  · intro c v h
    have hcond : v.isinstance_int = false ∨ v.toFloat < 1 := by
      rcases h with h | h
      · exact Or.inl h
      · exact Or.inr (lt_of_le_of_lt h one_pos)
    unfold set_max_read_size
    rw [if_pos hcond]
    exact ⟨⟨_, rfl⟩, rfl⟩

/-- Witness for C3: the integer 5 is accepted and stored, while the float
one-half and the integer 0 are rejected with the state left unchanged. -/
theorem C3_witness :
    (set_max_read_size ConnectionMessageBased.init (.int 5) =
      (none, { ConnectionMessageBased.init with max_read_size := 5 })) ∧
    ((∃ m, (set_max_read_size ConnectionMessageBased.init (.float (1/2))).1 =
        some (.valueError m)) ∧
     (set_max_read_size ConnectionMessageBased.init (.float (1/2))).2 =
        ConnectionMessageBased.init) ∧
    ((∃ m, (set_max_read_size ConnectionMessageBased.init (.int 0)).1 =
        some (.valueError m)) ∧
     (set_max_read_size ConnectionMessageBased.init (.int 0)).2 =
        ConnectionMessageBased.init) :=
  ⟨C3_max_read_size.1 ConnectionMessageBased.init 5 (by norm_num),
   C3_max_read_size.2 ConnectionMessageBased.init (.float (1/2)) (Or.inl rfl),
   C3_max_read_size.2 ConnectionMessageBased.init (.int 0)
     (Or.inr (by norm_num [PyNum.toFloat]))⟩

/-- Claim C10: Python booleans pass the `isinstance(size, int)` check, so
the `max_read_size` setter treats `True` as 1 (accepted and stored as the
limit 1) and `False` as 0 (rejected by the `size < 1` range check with
`ValueError`, state unchanged); a boolean is never rejected as a
non-integer. -/
theorem C10_bool_as_int :
    (∀ (b : Bool), (PyNum.bool b).isinstance_int = true) ∧
    (∀ (c : ConnectionMessageBased),
      set_max_read_size c (.bool true) = (none, { c with max_read_size := 1 })) ∧
    (∀ (c : ConnectionMessageBased),
      (∃ m, (set_max_read_size c (.bool false)).1 = some (.valueError m)) ∧
      (set_max_read_size c (.bool false)).2 = c) := by
  refine ⟨fun b => by cases b <;> rfl, fun c => ?_, fun c => ?_⟩
  · have hcond : ¬ ((PyNum.bool true).isinstance_int = false ∨
        (PyNum.bool true).toFloat < 1) := by
      simp only [PyNum.isinstance_int, PyNum.toFloat, if_true, not_or, not_lt]
      exact ⟨fun hx => Bool.noConfusion hx, le_refl 1⟩
    unfold set_max_read_size
    rw [if_neg hcond]
    rfl
  · have hcond : (PyNum.bool false).isinstance_int = false ∨
        (PyNum.bool false).toFloat < 1 := by
      refine Or.inr ?_
      simp only [PyNum.toFloat, if_false]
      norm_num
    unfold set_max_read_size
    rw [if_pos hcond]
    exact ⟨⟨_, rfl⟩, rfl⟩

/-- Claim C4: the encoding setter performs an encode-then-decode round-trip
of the fixed probe string with the given codec; if the round-trip fails it
raises and the stored encoding is unchanged, if it succeeds the stored
encoding becomes the new name, and a channel whose stored encoding
round-trips keeps that invariant across any call to the setter. -/
theorem C4_encoding_setter :
    (∀ (env : CodecEnv) (c : ConnectionMessageBased) (enc : String),
      roundtrips env enc = false →
      set_encoding env c enc = (some .encodingError, c)) ∧
    (∀ (env : CodecEnv) (c : ConnectionMessageBased) (enc : String),
      roundtrips env enc = true →
      set_encoding env c enc = (none, { c with encoding := enc })) ∧
    (∀ (env : CodecEnv) (c : ConnectionMessageBased) (enc : String),
      roundtrips env c.encoding = true →
      roundtrips env (set_encoding env c enc).2.encoding = true) := by
  have h1 : ∀ (env : CodecEnv) (c : ConnectionMessageBased) (enc : String),
      roundtrips env enc = false →
      set_encoding env c enc = (some .encodingError, c) := by
    intro env c enc h
    unfold roundtrips at h
    unfold set_encoding
    cases he : env.encode enc probe with
    | none => rfl
    | some bs =>
      rw [he] at h
      cases hd : env.decode enc bs with
      | none => simp [hd]
      | some s => simp [hd] at h
  have h2 : ∀ (env : CodecEnv) (c : ConnectionMessageBased) (enc : String),
      roundtrips env enc = true →
      set_encoding env c enc = (none, { c with encoding := enc }) := by
    intro env c enc h
    unfold roundtrips at h
    unfold set_encoding
    cases he : env.encode enc probe with
    | none => rw [he] at h; simp at h
    | some bs =>
      rw [he] at h
      cases hd : env.decode enc bs with
      | none => simp [hd] at h
      | some s => simp [hd]
  refine ⟨h1, h2, ?_⟩
  intro env c enc h
  cases hrt : roundtrips env enc with
  | false => rw [h1 env c enc hrt]; exact h
  | true => rw [h2 env c enc hrt]; exact hrt

/-- Witness for C4: in the concrete codec environment, an unknown codec
name is rejected with the state unchanged, `utf-8` is accepted and stored,
and the round-trip invariant holds after the successful call. -/
theorem C4_witness :
    (set_encoding env0 ConnectionMessageBased.init "not-a-real-codec" =
      (some .encodingError, ConnectionMessageBased.init)) ∧
    (set_encoding env0 ConnectionMessageBased.init "utf-8" =
      (none, { ConnectionMessageBased.init with encoding := "utf-8" })) ∧
    (roundtrips env0
      (set_encoding env0 ConnectionMessageBased.init "utf-8").2.encoding = true) :=
  ⟨C4_encoding_setter.1 env0 ConnectionMessageBased.init "not-a-real-codec" rfl,
   C4_encoding_setter.2.1 env0 ConnectionMessageBased.init "utf-8" rfl,
   C4_encoding_setter.2.2 env0 ConnectionMessageBased.init "utf-8" rfl⟩

/-- Claim C5: with a zero delay, `query` is exactly `write` immediately
followed by `read` — same result, same events, and no suspension event in
the trace. -/
theorem C5_query_zero_delay {δ : Type} (T : Transport δ) (d : δ)
    (message : String) (size : Option Int) :
    query T message 0 size d = write_then_read_spec T message size d ∧
    (query T message 0 size d).2.all (fun e => !e.isSleep) = true := by
  have hpre : ¬ (0:ℚ) < 0 := lt_irrefl 0
  constructor
  · unfold query write_then_read_spec
    cases hw : T.write message d with
    | error e => rfl
    | ok p =>
      obtain ⟨w, d1⟩ := p
      simp only [if_neg hpre]
      cases hr : T.read size d1 with
      | error e => rfl
      | ok r => rfl
  · unfold query
    cases hw : T.write message d with
    | error e => simp [Event.isSleep]
    | ok p =>
      obtain ⟨w, d1⟩ := p
      simp only [if_neg hpre]
      cases hr : T.read size d1 with
      | error e => simp [Event.isSleep]
      | ok r => simp [Event.isSleep]

/-- Claim C6: if `write` fails, `query` fails with that same error and
performs neither the sleep nor the read; if `write` succeeds and `read`
fails, `query` fails with exactly the read error. -/
theorem C6_query_error_propagation :
    (∀ {δ : Type} (T : Transport δ) (d : δ) (message : String) (delay : ℚ)
       (size : Option Int) (e : PyErr),
      T.write message d = .error e →
      query T message delay size d = (.error e, [Event.write message])) ∧
    (∀ {δ : Type} (T : Transport δ) (d : δ) (message : String) (delay : ℚ)
       (size : Option Int) (w : Int) (d1 : δ) (e : PyErr),
      T.write message d = .ok (w, d1) → T.read size d1 = .error e →
      (query T message delay size d).1 = .error e) := by
  constructor
  · intro δ T d message delay size e hw
    unfold query
    rw [hw]
  · intro δ T d message delay size w d1 e hw hr
    unfold query
    rw [hw]
    simp [hr]

/-- Witness for C6: a transport whose `write` fails yields exactly the
write error with no sleep or read performed, and a transport whose `read`
fails yields exactly the read error. -/
theorem C6_witness :
    (query writeFail "*IDN?" 1 none () =
      (.error (.transportError "device disconnected"), [Event.write "*IDN?"])) ∧
    ((query readFail "*IDN?" 1 none ()).1 = .error (.transportError "timeout")) :=
  ⟨C6_query_error_propagation.1 writeFail () "*IDN?" 1 none
     (.transportError "device disconnected") rfl,
   C6_query_error_propagation.2 readFail () "*IDN?" 1 none
     (Int.ofNat "*IDN?".length) () (.transportError "timeout") rfl rfl⟩

/-- Claim C9: with a positive delay and a successful `write`, the events of
`query` are exactly the write, then the suspension for the full delay, then
the read — the read never starts before the sleep. -/
theorem C9_query_delay_ordering {δ : Type} (T : Transport δ) (d : δ)
    (message : String) (delay : ℚ) (size : Option Int) (w : Int) (d1 : δ)
    (hd : 0 < delay) (hw : T.write message d = .ok (w, d1)) :
    (query T message delay size d).2 =
      [Event.write message, Event.sleep delay, Event.read size] := by
  unfold query
  rw [hw]
  cases hr : T.read size d1 with
  | error e => simp [hr, if_pos hd]
  | ok r => simp [hr, if_pos hd]

/-- Witness for C9: with delay 1 and a transport where both steps succeed,
the trace is write, sleep 1, read. -/
theorem C9_witness :
    (query okTransport "*IDN?" 1 none ()).2 =
      [Event.write "*IDN?", Event.sleep 1, Event.read none] :=
  C9_query_delay_ordering okTransport () "*IDN?" 1 none
    (Int.ofNat "*IDN?".length) () (by norm_num) rfl
